import Mathlib

/-!
Shallow embedding of cookbook/91_tools/visualization_tools.py.

The script configures several agents with a VisualizationTools value, each
selecting a subset of chart capabilities through an all flag or individual
enable flags, then dispatches a fixed sequence of prompts in its guarded
entry block.  The capability-resolution behaviour of VisualizationTools is
library code absent from src, so it is modelled from the spec; the agent
configurations and the statement sequence of the script are translated from
the source file.
-/

/-- Modelled from the spec: the fixed known capability enumeration of the
external visualization tool module (bar chart, line chart, scatter plot,
pie chart, histogram, multi-line chart). -/
def knownCapabilities : List String :=
  ["create_bar_chart", "create_line_chart", "create_scatter_plot",
   "create_pie_chart", "create_histogram", "create_multi_line_chart"]

/-- Lookup of a capability name in a per-function flag mapping, first
binding wins, as in a keyword-argument mapping. -/
def lookupFlag : List (String × Bool) → String → Option Bool
  | [], _ => none
  | (k, v) :: rest, n => if k = n then some v else lookupFlag rest n

/-- Modelled from the spec: capability resolution of the external
VisualizationTools class, absent from src.  When enableAll is set the
effective enabled set is the full capability enumeration regardless of the
per-function flags; otherwise it is exactly the known capability names whose
flag is present and true (absent or unknown flags enable nothing).  The
function is total: it returns a set for every input and has no failure
outcome. -/
def resolve (enableAll : Bool) (flags : List (String × Bool)) : List String :=
  if enableAll then knownCapabilities
  else knownCapabilities.filter (fun n => (lookupFlag flags n).getD false)

/-- Configuration record passed to the VisualizationTools constructor in the
script: the all flag, the six per-function enable flags as optionally
supplied keyword arguments (none models an omitted argument), and the output
directory. -/
structure VisualizationTools where
  all : Bool
  enable_create_bar_chart : Option Bool
  enable_create_line_chart : Option Bool
  enable_create_scatter_plot : Option Bool
  enable_create_pie_chart : Option Bool
  enable_create_histogram : Option Bool
  enable_create_multi_line_chart : Option Bool
  output_dir : String
deriving DecidableEq

/-- The per-function flag mapping induced by the keyword arguments that were
actually supplied to the VisualizationTools constructor. -/
def VisualizationTools.perFunctionFlags (t : VisualizationTools) : List (String × Bool) :=
  List.filterMap (fun p => Option.map (fun b => (p.1, b)) p.2)
    [("create_bar_chart", t.enable_create_bar_chart),
     ("create_line_chart", t.enable_create_line_chart),
     ("create_scatter_plot", t.enable_create_scatter_plot),
     ("create_pie_chart", t.enable_create_pie_chart),
     ("create_histogram", t.enable_create_histogram),
     ("create_multi_line_chart", t.enable_create_multi_line_chart)]

/-- Effective enabled-capability set of a VisualizationTools configuration. -/
def resolveConfig (t : VisualizationTools) : List String :=
  resolve t.all t.perFunctionFlags

/-- Agent value as constructed in the script: a model id, one
VisualizationTools configuration, an instruction list and a markdown flag. -/
structure Agent where
  model_id : String
  tools : VisualizationTools
  instructions : List String
  markdown : Bool
deriving DecidableEq

/-- Example 1 of the source: all visualization functions enabled through
all=True, output directory business_charts. -/
def viz_agent_all : Agent :=
  ⟨"gpt-4o",
   ⟨true, none, none, none, none, none, none, "business_charts"⟩,
   ["You are a data visualization expert with access to all chart types.",
    "Use appropriate visualization functions for the data presented.",
    "Always provide meaningful titles, axis labels, and context.",
    "Suggest insights based on the data visualized.",
    "Format data appropriately for each chart type."],
   true⟩

/-- Example 1b of the source: the six per-function flags set explicitly to
true, output directory business_charts. -/
def viz_agent_full : Agent :=
  ⟨"gpt-4o",
   ⟨false, some true, some true, some true, some true, some true, some true,
    "business_charts"⟩,
   ["You are a data visualization expert with access to all chart types.",
    "Use appropriate visualization functions for the data presented.",
    "Always provide meaningful titles, axis labels, and context.",
    "Suggest insights based on the data visualized.",
    "Format data appropriately for each chart type."],
   true⟩

/-- Example 2 of the source: bar, line and pie charts true, scatter plot and
histogram explicitly false, multi-line omitted, output directory
basic_charts. -/
def viz_agent_basic : Agent :=
  ⟨"gpt-4o",
   ⟨false, some true, some true, some false, some true, some false, none,
    "basic_charts"⟩,
   ["You are a data visualization specialist focused on basic chart types.",
    "Use bar charts for categorical comparisons.",
    "Use line charts for trends over time.",
    "Use pie charts for part-to-whole relationships.",
    "Keep visualizations simple and clear."],
   true⟩

/-- Example 3 of the source: five standard flags true, multi-line omitted,
output directory safe_charts. -/
def viz_agent_safe : Agent :=
  ⟨"gpt-4o",
   ⟨false, some true, some true, some true, some true, some true, none,
    "safe_charts"⟩,
   ["You are a business analyst creating straightforward visualizations.",
    "Focus on clear, easy-to-interpret charts.",
    "Avoid overly complex visualization types.",
    "Ensure charts are suitable for business presentations."],
   true⟩

/-- Example 4 of the source: scatter plot and histogram true, bar, line and
pie explicitly false, multi-line omitted, output directory stats_charts. -/
def viz_agent_stats : Agent :=
  ⟨"gpt-4o",
   ⟨false, some false, some false, some true, some false, some true, none,
    "stats_charts"⟩,
   ["You are a statistical analyst focused on data distribution and correlation.",
    "Use scatter plots to show relationships between variables.",
    "Use histograms to show data distributions.",
    "Provide statistical insights based on the visualizations."],
   true⟩

/-- Agent constructed inside the entry block of the source: all flag set,
output directory dashboard_charts. -/
def bi_agent : Agent :=
  ⟨"gpt-4o",
   ⟨true, none, none, none, none, none, none, "dashboard_charts"⟩,
   ["You are a Business Intelligence analyst.",
    "Create comprehensive visualizations for executive dashboards.",
    "Provide actionable insights and recommendations.",
    "Use appropriate chart types for different data scenarios.",
    "Always explain what the data reveals about business performance."],
   true⟩

/-- Module-level rebinding of the source: viz_agent = viz_agent_all. -/
def viz_agent : Agent := viz_agent_all

/-- Module-level binding names occurring in the script. -/
inductive VarName where
  | viz_agent_all
  | viz_agent_full
  | viz_agent_basic
  | viz_agent_safe
  | viz_agent_stats
  | viz_agent
  | bi_agent
deriving DecidableEq

/-- Statements of the script relevant to its module state: constructing an
agent and binding it to a name, aliasing an existing binding, a blocking
print_response call on a named agent, and a plain print. -/
inductive Stmt where
  | assign (n : VarName) (v : Agent)
  | aliasOf (n target : VarName)
  | printResponse (agentName : VarName) (prompt : String) (stream : Bool)
  | printLn (s : String)

/-- Name bound by a statement, when it binds one. -/
def Stmt.assignedName : Stmt → Option VarName
  | .assign n _ => some n
  | .aliasOf n _ => some n
  | .printResponse _ _ _ => none
  | .printLn _ => none

/-- Agent invocation performed by a statement, when it performs one: the
agent name and the stream flag of the blocking call. -/
def Stmt.invocationOf : Stmt → Option (VarName × Bool)
  | .printResponse n _ s => some (n, s)
  | _ => none

/-- Lookup of a name in the module environment. -/
def lookupEnv : List (VarName × Agent) → VarName → Option Agent
  | [], _ => none
  | (k, v) :: rest, n => if k = n then some v else lookupEnv rest n

/-- Effect of one statement on the module environment: binding statements
prepend a binding, the print statements leave the environment unchanged
(the source performs no assignment inside them). -/
def execStmt (env : List (VarName × Agent)) : Stmt → List (VarName × Agent)
  | .assign n v => (n, v) :: env
  | .aliasOf n t =>
      match lookupEnv env t with
      | some v => (n, v) :: env
      | none => env
  | .printResponse _ _ _ => env
  | .printLn _ => env

/-- Sequential execution of a statement list. -/
def execStmts (env : List (VarName × Agent)) (stmts : List Stmt) : List (VarName × Agent) :=
  stmts.foldl execStmt env

/-- Module-level statements of the script, in source order: the five agent
constructions followed by the viz_agent alias. -/
def topLevelStmts : List Stmt :=
  [Stmt.assign VarName.viz_agent_all viz_agent_all,
   Stmt.assign VarName.viz_agent_full viz_agent_full,
   Stmt.assign VarName.viz_agent_basic viz_agent_basic,
   Stmt.assign VarName.viz_agent_safe viz_agent_safe,
   Stmt.assign VarName.viz_agent_stats viz_agent_stats,
   Stmt.aliasOf VarName.viz_agent VarName.viz_agent_all]

/-- Separator line printed between the examples. -/
def sepLine : String := String.mk (List.replicate 60 '=')

/-- Statements of the guarded entry block, in source order.  Each prompt is
abridged to the chart title it requests; the prompt text is free text passed
unchanged to the external agent and carries no further structure at this
layer. -/
def mainStmts : List Stmt :=
  [Stmt.printLn "Example 1: Creating a Sales Performance Chart",
   Stmt.printResponse VarName.viz_agent "Q4 Sales Performance" true,
   Stmt.printLn sepLine,
   Stmt.printLn "Example 2: Market Share Pie Chart",
   Stmt.printResponse VarName.viz_agent "Market Share Analysis 2024" true,
   Stmt.printLn sepLine,
   Stmt.printLn "Example 3: Revenue Growth Trend",
   Stmt.printResponse VarName.viz_agent "Monthly Revenue Growth" true,
   Stmt.printLn sepLine,
   Stmt.printLn "Example 4: Customer Satisfaction vs Sales Correlation",
   Stmt.printResponse VarName.viz_agent "Customer Satisfaction vs Sales Performance" true,
   Stmt.printLn sepLine,
   Stmt.printLn "Example 5: Score Distribution Histogram",
   Stmt.printResponse VarName.viz_agent "Customer Review Score Distribution" true,
   Stmt.printLn sepLine,
   Stmt.printLn "Example 6: Multi-Line Chart - Revenue vs Expenses Over Time",
   Stmt.printResponse VarName.viz_agent "Revenue vs Expenses vs Profit Trend" true,
   Stmt.printLn sepLine,
   Stmt.printLn "Example 7: Multi-Line Chart - Product Performance Comparison",
   Stmt.printResponse VarName.viz_agent "Quarterly Product Sales Comparison" true,
   Stmt.printLn "All examples completed. Check the business_charts folder for generated visualizations.",
   Stmt.printLn "ADVANCED EXAMPLE: Business Intelligence Dashboard",
   Stmt.assign VarName.bi_agent bi_agent,
   Stmt.printResponse VarName.bi_agent "Quarterly Business Review" true]

/-- Removal of a key from a flag mapping. -/
def eraseKey : List (String × Bool) → String → List (String × Bool)
  | [], _ => []
  | (a, b) :: rest, k => if a = k then eraseKey rest k else (a, b) :: eraseKey rest k

/-- Update of a flag mapping at one key. -/
def setKey (F : List (String × Bool)) (k : String) (v : Bool) : List (String × Bool) :=
  (k, v) :: eraseKey F k

/-- Modelled from the spec: world of directories created so far; directory
creation is performed by the external renderer, not by capability
resolution. -/
abbrev World : Type := List String

/-- Modelled from the spec: directory creation, an operation of the external
renderer. -/
def createOutputDir (w : World) (dir : String) : World := dir :: w

/-- Modelled from the spec: the external renderer creates the output
directory of the configuration it renders into. -/
def render (w : World) (t : VisualizationTools) : World :=
  createOutputDir w t.output_dir

/-- Modelled from the spec: capability resolution observed against the world
of created directories; it only produces the enabled set. -/
def resolveInWorld (w : World) (enableAll : Bool) (flags : List (String × Bool)) :
    List String × World :=
  (resolve enableAll flags, w)

/-! Helper lemmas. -/

theorem resolve_false (F : List (String × Bool)) :
    resolve false F = knownCapabilities.filter (fun n => (lookupFlag F n).getD false) := by
  simp [resolve]

theorem lookupFlag_mem {F : List (String × Bool)} {k : String} {v : Bool}
    (h : lookupFlag F k = some v) : (k, v) ∈ F := by
  induction F with
  | nil => simp [lookupFlag] at h
  | cons p rest ih =>
      obtain ⟨a, b⟩ := p
      simp only [lookupFlag] at h
      split at h
      · next hak =>
          obtain rfl := Option.some.inj h
          subst hak
          exact List.mem_cons_self _ _
      · exact List.mem_cons_of_mem _ (ih h)

theorem getD_false_iff {o : Option Bool} : o.getD false = true ↔ o = some true := by
  cases o <;> simp

theorem lookupFlag_eraseKey (F : List (String × Bool)) (k : String) :
    lookupFlag (eraseKey F k) k = none := by
  induction F with
  | nil => rfl
  | cons p rest ih =>
      obtain ⟨a, b⟩ := p
      simp only [eraseKey]
      split
      · exact ih
      · next hak => simp only [lookupFlag, if_neg hak]; exact ih

theorem lookup_setKey_false (F : List (String × Bool)) (k n : String) :
    (lookupFlag (setKey F k false) n).getD false
      = (lookupFlag (eraseKey F k) n).getD false := by
  by_cases h : k = n
  · subst h
    simp [setKey, lookupFlag, lookupFlag_eraseKey]
  · simp [setKey, lookupFlag, h]

/-! Claim theorems. -/

/-- C1: for every flag mapping F, resolving with enableAll set yields the
full known-capability enumeration, regardless of the contents of F. -/
theorem resolve_enableAll_eq_knownCapabilities (F : List (String × Bool)) :
    resolve true F = knownCapabilities := by
  simp [resolve]

/-- C2: under the input constraint of the spec (flag keys drawn from the
known capability enumeration), resolving with enableAll false yields exactly
the names mapped to true: a name is in the result precisely when the mapping
sends it to true. -/
theorem resolve_false_mem_iff (F : List (String × Bool))
    (h : ∀ p ∈ F, p.1 ∈ knownCapabilities) (k : String) :
    k ∈ resolve false F ↔ lookupFlag F k = some true := by
  rw [resolve_false, List.mem_filter]
  constructor
  · rintro ⟨-, hp⟩
    exact getD_false_iff.mp hp
  · intro hl
    exact ⟨h (k, true) (lookupFlag_mem hl), getD_false_iff.mpr hl⟩

/-- Witness for C2 at a concrete mapping with only known keys. -/
theorem resolve_false_mem_iff_witness :
    (∀ p ∈ [("create_bar_chart", true), ("create_histogram", false)],
        Prod.fst p ∈ knownCapabilities) ∧
    ("create_bar_chart" ∈ resolve false [("create_bar_chart", true), ("create_histogram", false)] ↔
      lookupFlag [("create_bar_chart", true), ("create_histogram", false)] "create_bar_chart"
        = some true) :=
  ⟨by decide,
   resolve_false_mem_iff [("create_bar_chart", true), ("create_histogram", false)]
     (by decide) "create_bar_chart"⟩

/-- C3: a key outside the fixed known capability enumeration never appears
in the set returned by resolve: unknown keys are silently ignored. -/
theorem unknown_key_not_mem_resolve (enableAll : Bool) (F : List (String × Bool))
    (k : String) (h : k ∉ knownCapabilities) : k ∉ resolve enableAll F := by
  cases enableAll with
  | true => simpa [resolve] using h
  | false =>
      rw [resolve_false]
      intro hk
      exact h (List.mem_of_mem_filter hk)

/-- Witness for C3 at a concrete unknown key mapped to true. -/
theorem unknown_key_not_mem_resolve_witness :
    "create_heatmap" ∉ knownCapabilities ∧
    "create_heatmap" ∉ resolve false [("create_heatmap", true)] :=
  ⟨by decide,
   unknown_key_not_mem_resolve false [("create_heatmap", true)] "create_heatmap" (by decide)⟩

/-- C4: resolving with enableAll false and an empty flag mapping yields the
empty set.  That resolve never raises or fails is carried by its type: it is
a total function into List String, with no error outcome. -/
theorem resolve_false_empty_eq_nil : resolve false [] = [] := by decide

/-- C5: the all=True configuration of viz_agent_all and the configuration of
viz_agent_full, which sets each of the six per-function flags explicitly to
true, resolve to the same effective enabled-capability set. -/
theorem viz_agent_full_eq_viz_agent_all_capabilities :
    resolveConfig viz_agent_full.tools = resolveConfig viz_agent_all.tools := by
  decide

/-- C6: after the module-level statements, the binding viz_agent holds the
all-enabled configuration viz_agent_all, whose effective enabled set is the
full capability enumeration and whose output directory is business_charts. -/
theorem viz_agent_alias_selects_all_enabled :
    lookupEnv (execStmts [] topLevelStmts) VarName.viz_agent = some viz_agent_all ∧
    viz_agent = viz_agent_all ∧
    resolveConfig viz_agent.tools = knownCapabilities ∧
    viz_agent.tools.output_dir = "business_charts" :=
  ⟨rfl, rfl, rfl, rfl⟩

/-- C7: every binding of the program is assigned at most once (the bound
names across the module level and the entry block are distinct), each from a
literal agent value, and the non-binding statements leave the module
environment untouched, so no configuration field changes after
construction. -/
theorem configs_assigned_once_never_mutated :
    ((topLevelStmts ++ mainStmts).filterMap Stmt.assignedName).Nodup ∧
    ∀ (env : List (VarName × Agent)) (s : Stmt),
      Stmt.assignedName s = none → execStmt env s = env := by
  refine ⟨by decide, ?_⟩
  intro env s h
  cases s with
  | assign n v => simp [Stmt.assignedName] at h
  | aliasOf n t => simp [Stmt.assignedName] at h
  | printResponse n p st => rfl
  | printLn str => rfl

/-- Witness for C7 at a concrete non-binding statement. -/
theorem configs_assigned_once_never_mutated_witness :
    execStmt [] (Stmt.printLn "done") = [] :=
  configs_assigned_once_never_mutated.2 [] (Stmt.printLn "done") rfl

/-- C8: the entry block performs its agent invocations as a fixed sequential
list, seven blocking streamed viz_agent prompts in order and then one
bi_agent prompt; invocation statements never modify the module environment,
and the viz_agent binding is the same before and after the whole block. -/
theorem main_block_sequential_invocations :
    mainStmts.filterMap Stmt.invocationOf
        = List.replicate 7 (VarName.viz_agent, true) ++ [(VarName.bi_agent, true)] ∧
    (∀ (env : List (VarName × Agent)) (s : Stmt),
        (Stmt.invocationOf s).isSome → execStmt env s = env) ∧
    ∀ env : List (VarName × Agent),
      lookupEnv (execStmts env mainStmts) VarName.viz_agent
        = lookupEnv env VarName.viz_agent := by
  refine ⟨by decide, ?_, ?_⟩
  · intro env s h
    cases s with
    | assign n v => simp [Stmt.invocationOf] at h
    | aliasOf n t => simp [Stmt.invocationOf] at h
    | printResponse n p st => rfl
    | printLn str => simp [Stmt.invocationOf] at h
  · intro env
    simp [mainStmts, execStmts, execStmt, lookupEnv]

/-- Witness for C8 at a concrete invocation statement. -/
theorem main_block_sequential_invocations_witness :
    execStmt [] (Stmt.printResponse VarName.viz_agent "Q4 Sales Performance" true) = [] :=
  main_block_sequential_invocations.2.1 []
    (Stmt.printResponse VarName.viz_agent "Q4 Sales Performance" true) rfl

/-- C9: for every input, capability resolution produces only the enabled
set and leaves the world of created directories unchanged; creating the
output directory is the external renderer, whose world does gain the
directory. -/
theorem resolve_no_side_effects :
    (∀ (w : World) (enableAll : Bool) (F : List (String × Bool)),
        (resolveInWorld w enableAll F).2 = w ∧
        (resolveInWorld w enableAll F).1 = resolve enableAll F) ∧
    ∀ (w : World) (t : VisualizationTools), t.output_dir ∈ render w t := by
  refine ⟨fun w ea F => ⟨rfl, rfl⟩, fun w t => ?_⟩
  simp [render, createOutputDir]

/-- C10: a per-function flag set to false resolves the same as the flag
being absent, for every mapping and key; concretely, the enabled set of
viz_agent_basic is exactly bar chart, line chart and pie chart despite its
explicit false entries for scatter plot and histogram. -/
theorem flag_false_eq_absent :
    (∀ (F : List (String × Bool)) (k : String),
        resolve false (setKey F k false) = resolve false (eraseKey F k)) ∧
    resolveConfig viz_agent_basic.tools
      = ["create_bar_chart", "create_line_chart", "create_pie_chart"] := by
  refine ⟨?_, by decide⟩
  intro F k
  rw [resolve_false, resolve_false]
  exact congrArg (fun p => List.filter p knownCapabilities)
    (funext fun n => lookup_setKey_false F k n)
